import Mathlib

set_option linter.unusedVariables false

/-
Verification of the Sentinel-2 helper scripts (band path resolution, cloud
mask extraction, reflectance normalization, safe list indexing, and the
batch raster reader) against their natural-language specification.

The repository holds three near-identical copies of the helper module:
  - sources/sentinel_helpers.py            (the most evolved copy)
  - true-color-image/sentinel_helpers.py   (string-based band paths)
  - "True-Color Image"/sentinel_helpers.py (the earliest copy, band_paths)
Each Lean definition below embeds one concrete copy and says which.
-/

/-
String helpers.  The embeddings below work on the character lists of
strings so that every operation is structurally recursive and evaluates
inside the kernel.  They model the corresponding Python str and pathlib
operations for the inputs arising in this code base.
-/

/-- Bool test for list infix, structurally recursive on the haystack.
Models the Python substring test `needle in hay`. -/
def listIsInfix (needle : List Char) : List Char → Bool
  | [] => needle.isEmpty
  | c :: t => needle.isPrefixOf (c :: t) || listIsInfix needle t

/-- Python `needle in hay` on strings (substring containment). -/
def strContains (hay needle : String) : Bool :=
  listIsInfix needle.toList hay.toList

/-- Python `s.endswith(suffix)`. -/
def strEndsWith (s suffix : String) : Bool :=
  suffix.toList.isSuffixOf s.toList

/-- Python `s.startswith(pre)`. -/
def strStartsWith (s pre : String) : Bool :=
  pre.toList.isPrefixOf s.toList

/-- Python `s.split(sep)` on a character list: splits at every separator,
keeping empty pieces, so `splitOnChar sep []` is `[[]]` like `"".split`. -/
def splitOnChar (sep : Char) : List Char → List (List Char)
  | [] => [[]]
  | c :: t =>
    let rest := splitOnChar sep t
    if c = sep then [] :: rest
    else
      match rest with
      | r :: rs => (c :: r) :: rs
      | [] => [[c]]

/-- The path components kept by pathlib PurePosixPath: splitting on the
slash and dropping empty components and lone dots. -/
def pathParts (s : String) : List (List Char) :=
  (splitOnChar '/' s.toList).filter (fun part => !part.isEmpty && part != ['.'])

/-- Joins components with single slashes. -/
def intercalateSlash : List (List Char) → List Char
  | [] => []
  | [p] => p
  | p :: ps => p ++ '/' :: intercalateSlash ps

/-- Models `str(pathlib.Path(s))` for the non-empty POSIX strings arising
here: repeated slashes collapse to one, lone dot components and trailing
slashes are dropped, a single leading slash is kept.  (The pathlib corner
cases for an empty string and for an exactly-double leading slash do not
occur in this code base.)  In particular the `zip+file://A!/E` strings the
sources copy wraps in `Path` come back as `zip+file:/A!/E`. -/
def pathStr (s : String) : String :=
  let pre := if strStartsWith s "/" then ['/'] else []
  String.mk (pre ++ intercalateSlash (pathParts s))

/-- Models the pathlib `.name` property: the last kept path component. -/
def pathName (s : String) : String :=
  String.mk ((pathParts s).getLast?.getD [])

/-- Models `pathlib.Path.absolute()`: prepend the working directory to a
relative path; an absolute path is returned unchanged (no normalization). -/
def absoluteFrom (cwd p : String) : String :=
  if strStartsWith p "/" then p else cwd ++ "/" ++ p

/-
Band path resolution.
-/

/-- The `bands` argument of the resolvers: Python callers pass either a
single band identifier (a string) or a list of identifiers. -/
inductive PyBands where
  | str (s : String)
  | list (l : List String)

/-- The `if type(bands) != list: bands = [bands]` normalization performed
by both scihub_band_paths copies. -/
def pyBandsAsList : PyBands → List String
  | .str b => [b]
  | .list l => l

/-- What `for b in bands` iterates over when no normalization happened
(the early band_paths copy): a list yields its members, but a bare string
yields its characters, each a one-character string. -/
def pyBandsIter : PyBands → List String
  | .str s => s.toList.map (fun c => String.mk [c])
  | .list l => l

/-- The resolution filter of sources/sentinel_helpers.py line 97:
`[raster for raster in rasters if resolution in raster.name]`. -/
def resolutionFilter (resolution : String) (rasters : List String) : List String :=
  rasters.filter (fun raster => strContains (pathName raster) resolution)

/-- Embedding of `scihub_band_paths` from sources/sentinel_helpers.py
(lines 66-99).  `entries` models the file system at `p`: the archive
member names when `p` names a zip file (read via `ZipFile(p).namelist()`),
otherwise the paths of all files below the directory `p`, relative to it
(enumerated via `p.glob(..)`).  The zip branch wraps each hit in
`Path(f_string)`, hence `pathStr`; matching is against `raster.name`.
In the directory branch `p.glob` returns a one-shot generator, so the
band comprehension `[raster for band in bands for raster in rasters ...]`
exhausts it while scanning for the first band and later bands match
nothing; the embedding reproduces that. -/
def scihub_band_paths (cwd p : String) (entries : List String) (bands : PyBands)
    (resolution : Option String) : List String :=
  let bandsL := pyBandsAsList bands
  let selected :=
    if strEndsWith p ".zip" then
      let rasters := (entries.filter (fun f => strEndsWith f ".jp2")).map
        (fun f => pathStr ("zip+file://" ++ absoluteFrom cwd p ++ "!/" ++ f))
      (bandsL.map (fun band =>
        rasters.filter (fun raster => strContains (pathName raster) band))).flatten
    else
      let rasters := (entries.filter (fun f => strEndsWith f ".jp2")).map
        (fun f => p ++ "/" ++ f)
      match bandsL with
      | [] => []
      | b :: _ => rasters.filter (fun raster => strContains (pathName raster) b)
  match resolution with
  | some res => resolutionFilter res selected
  | none => selected

/-- Embedding of `band_paths` from "True-Color Image"/sentinel_helpers.py
(lines 11-31).  `entries` is as in `scihub_band_paths`.  This copy does
not normalize a bare-string `bands` argument (`pyBandsIter`), its
directory branch calls `glob.glob` without `recursive=True` so the
pattern `**/*.jp2` matches only paths of depth exactly two, matching and
the resolution filter run on the whole path string, and the
`zip+file://` rewriting on line 30 is applied unconditionally, for
directories too. -/
def band_paths (p : String) (entries : List String) (bands : PyBands)
    (resolution : Option String) : List String :=
  let rasters :=
    if strEndsWith p ".zip" then entries.filter (fun f => strEndsWith f ".jp2")
    else (entries.filter (fun e =>
        (splitOnChar '/' e.toList).length == 2 && strEndsWith e ".jp2")).map
      (fun e => p ++ "/" ++ e)
  let selected := (rasters.map (fun raster =>
    ((pyBandsIter bands).filter (fun b => strContains raster b)).map
      (fun _ => raster))).flatten
  let filtered :=
    match resolution with
    | some res => selected.filter (fun raster => strContains raster res)
    | none => selected
  filtered.map (fun raster => "zip+file://" ++ p ++ "!/" ++ raster)

/-
Cloud mask extraction.
-/

/-- Python exceptions relevant to these helpers. -/
inductive PyErr where
  | indexError
  | valueError
  deriving DecidableEq

/-- Outcome of a Python call: a value, or a raised exception. -/
inductive PyResult (α : Type) where
  | ok (v : α)
  | exn (e : PyErr)
  deriving DecidableEq

/-- A polygon feature read from the cloud mask vector file, as its ring of
coordinates. -/
abbrev Polygon := List (Int × Int)

/-- The geometry values produced by the vector branch: the explicit empty
`Polygon([])`, or the union of the parsed features. -/
inductive Geom where
  | polygon (pts : Polygon)
  | union (parts : List Polygon)
  deriving DecidableEq

/-- The shapely `is_empty` test on the geometries above. -/
def Geom.isEmpty : Geom → Bool
  | .polygon pts => pts.isEmpty
  | .union parts => parts.all List.isEmpty

/-- Models `shapely.ops.unary_union` as used by scihub_cloud_mask: the
union of the feature geometries; on an empty feature list it raises
ValueError, which is the external behavior the except-ValueError branch of
the source (commented "empty cloud mask") relies on. -/
def unary_union (shapes : List Polygon) : PyResult Geom :=
  if shapes.isEmpty then .exn .valueError else .ok (.union shapes)

/-- A rasterio affine transform: a named 6-tuple of coefficients.  As a
non-empty tuple it is always truthy in Python. -/
structure Affine where
  a : Int
  b : Int
  c : Int
  d : Int
  e : Int
  f : Int
  deriving DecidableEq

/-- The keyword arguments of scihub_cloud_mask in the sources copy;
`none` models an absent keyword (`kwargs.get` returning None). -/
structure CMKwargs where
  rasterize : Bool
  target_shape : Option (List Nat)
  target_transform : Option Affine

/-- Python truthiness of `kwargs.get("target_shape")`: None and the empty
tuple are falsy, a non-empty tuple is truthy. -/
def pyTruthyShape : Option (List Nat) → Bool
  | none => false
  | some l => !l.isEmpty

/-- Python truthiness of `kwargs.get("target_transform")`: None is falsy,
an Affine (a non-empty named tuple) is always truthy. -/
def pyTruthyAffine : Option Affine → Bool
  | none => false
  | some _ => true

/-- Models `numpy.full(shape, b)` for the two-dimensional shapes used
here. -/
def npFull (shape : List Nat) (b : Bool) : List (List Bool) :=
  match shape with
  | [h, w] => List.replicate h (List.replicate w b)
  | _ => []

/-- Result of scihub_cloud_mask: a vector geometry, or a rasterized
boolean grid. -/
inductive CloudMask where
  | vector (g : Geom)
  | raster (grid : List (List Bool))
  deriving DecidableEq

/-- The cloud mask vector file lookup of scihub_cloud_mask: the first
entry ending in MSK_CLOUDS_B00.gml; `[f for f in files if ...][0]` (and
likewise `list(p.glob(..))[0]`) raises IndexError when there is none. -/
def cloudMaskFile (entries : List String) : Option String :=
  (entries.filter (fun f => strEndsWith f "MSK_CLOUDS_B00.gml")).head?

/-- Embedding of `scihub_cloud_mask` from sources/sentinel_helpers.py
(lines 110-166).  `entries` models the file listing of the product at
`p` (both the zip and the directory branch reduce to picking the first
entry ending in MSK_CLOUDS_B00.gml; the zip branch only extracts that
file to a temporary directory first).  `features` is the fiona parse of a
vector file, `gmask` stands for the external
`rasterio.features.geometry_mask`.  Only a ValueError from the feature
union is converted to the explicit empty `Polygon([])`; every other
exception propagates.  In rasterize mode the source checks
`if not target_transform or not target_shape` - Python truthiness, not
presence - before using the two values. -/
def scihub_cloud_mask (p : String) (entries : List String)
    (features : String → List Polygon)
    (gmask : Geom → List Nat → Affine → List (List Bool))
    (kw : CMKwargs) : PyResult CloudMask :=
  match cloudMaskFile entries with
  | none => .exn .indexError
  | some file =>
    let maskE : PyResult Geom :=
      match unary_union (features file) with
      | .ok g => .ok g
      | .exn PyErr.valueError => .ok (Geom.polygon [])
      | .exn e => .exn e
    match maskE with
    | .exn e => .exn e
    | .ok mask =>
      if kw.rasterize then
        if !pyTruthyAffine kw.target_transform || !pyTruthyShape kw.target_shape then
          .exn .valueError
        else
          match kw.target_shape, kw.target_transform with
          | some shape, some tf =>
            if mask.isEmpty then .ok (.raster (npFull shape true))
            else .ok (.raster (gmask mask shape tf))
          | _, _ => .exn .valueError
      else .ok (.vector mask)

/-- Modelled from the spec: the raster/probability form of the cloud mask
extractor (spec section 4.2, the "evolved variant" thresholding the
MSK_CLDPRB band) is not among the three copies under src/, which
rasterize the vector mask instead.  Per the spec, the 0-100-scaled
probability grid is thresholded at `cloud_probability * 100` (the input
is a 0-1 fraction) over the requested/derived target shape, `true`
meaning cloud probability at or above the threshold. -/
def scihub_cloud_mask_rasterized (target_shape : Nat × Nat)
    (prob : Nat → Nat → ℚ) (cloud_probability : ℚ) : List (List Bool) :=
  (List.range target_shape.1).map (fun i =>
    (List.range target_shape.2).map (fun j =>
      decide (cloud_probability * 100 ≤ prob i j)))

/-
Reflectance normalization, safe list access, batch raster reader.
-/

/-- Embedding of `scihub_normalize_range` from sources/sentinel_helpers.py
(lines 169-176): `np.clip(v, 0, 2000) / 2000`, element-wise over exact
rationals (`np.clip(v, lo, hi)` is `min(max(v, lo), hi)`). -/
def scihub_normalize_range (v : ℚ) : ℚ :=
  min (max v 0) 2000 / 2000

/-- CPython list indexing `xs[n]`: a negative index first has the length
added to it; the result must then lie in `[0, len)`, otherwise IndexError
(here: `none`). -/
def pyGetItem {α : Type} (xs : List α) (n : Int) : Option α :=
  let i := if n < 0 then n + xs.length else n
  if 0 ≤ i ∧ i < (xs.length : Int) then xs.get? i.toNat else none

/-- Embedding of `nth` from sources/sentinel_helpers.py (lines 33-42):
`xs[n]`, with IndexError converted to the default value. -/
def nth {α : Type} (xs : List α) (n : Int) (default : α) : α :=
  match pyGetItem xs n with
  | some v => v
  | none => default

/-- The loop of `RasterReaderList.__enter__` (sources copy, lines
203-207): opens each path in order, appending to `open_files`; an open
failure raises out of `__enter__`, leaving the list of handles opened so
far behind.  Returns the accumulated handles and the raised exception,
if any. -/
def rasterReaderListEnter {P H : Type} (openRes : P → PyResult H) :
    List P → List H → List H × Option PyErr
  | [], acc => (acc, none)
  | p :: ps, acc =>
    match openRes p with
    | .ok h => rasterReaderListEnter openRes ps (acc ++ [h])
    | .exn e => (acc, some e)

/-- The loop of `RasterReaderList.__exit__` (sources copy, lines
209-216): closes every handle in `open_files`, each close wrapped in
try/except so a failing close is swallowed and the remaining handles are
still closed.  Returns the handles whose close was invoked and the
exception the loop raises (always none here, by the try/except). -/
def rasterReaderListExit {H : Type} (closeFails : H → Bool) :
    List H → List H × Option PyErr
  | [] => ([], none)
  | h :: t =>
    let _ := closeFails h
    let rest := rasterReaderListExit closeFails t
    (h :: rest.1, rest.2)

/-- The `with RasterReaderList(paths) as fs:` statement around a body
that finishes with `bodyErr` (none: normal exit; some e: the body raises
e).  Per the Python context manager protocol, when `__enter__` raises,
`__exit__` is not called at all; otherwise `__exit__` runs on every exit
path, and since it returns None the body exception propagates.  Returns
the handles whose close was invoked and the exception escaping the with
statement. -/
def withRasterReaderList {P H : Type} (openRes : P → PyResult H)
    (closeFails : H → Bool) (paths : List P) (bodyErr : Option PyErr) :
    List H × Option PyErr :=
  match rasterReaderListEnter openRes paths [] with
  | (_, some e) => ([], some e)
  | (opened, none) =>
    let closed := rasterReaderListExit closeFails opened
    (closed.1, bodyErr)

/-
Theorems.
-/

/-- C1: the claim states that for every product location and non-empty
band list the resolver returns exactly the `.jp2` entries matching at
least one requested band (possibly once per matching band).  The code
violates this: in the directory branch of scihub_band_paths (sources
copy) `p.glob` is a one-shot generator, so only entries matching the
FIRST requested band are returned.  At a directory holding one B02 and
one B03 raster, requesting both bands returns only the B02 path, even
though the B03 entry ends in `.jp2` and its name contains the requested
band `B03`.  The docstring ("the raster files containing information for
the given bands") and the zip branch of the same function show the claim
is the intent, so this is a bug in the code. -/
theorem c1_directory_branch_drops_later_bands :
    scihub_band_paths "/home/user" "/data/prod"
        ["a/T_B02_10m.jp2", "b/T_B03_10m.jp2"] (PyBands.list ["B02", "B03"]) none
      = ["/data/prod/a/T_B02_10m.jp2"]
    ∧ strEndsWith "b/T_B03_10m.jp2" ".jp2" = true
    ∧ strContains (pathName "/data/prod/b/T_B03_10m.jp2") "B03" = true
    ∧ "/data/prod/b/T_B03_10m.jp2" ∉ scihub_band_paths "/home/user" "/data/prod"
        ["a/T_B02_10m.jp2", "b/T_B03_10m.jp2"] (PyBands.list ["B02", "B03"]) none := by
  refine ⟨by decide, by decide, by decide, by decide⟩

/-- C2: the claim states archive results always have the composite
`zip+file with archive and entry` form and directory results never do.
The code violates the second half: `band_paths` (the "True-Color Image"
copy) applies the `zip+file://` rewriting on its line 30 unconditionally,
so a raster found under a plain directory also comes back in the
composite form, contradicting the docstring ("formatted in the zip
scheme ... if necessary"). -/
theorem c2_band_paths_prefixes_directory_results :
    band_paths "/data/prod" ["g/T_B02.jp2"] (PyBands.list ["B02"]) none
      = ["zip+file:///data/prod!//data/prod/g/T_B02.jp2"]
    ∧ strEndsWith "/data/prod" ".zip" = false
    ∧ strStartsWith "zip+file:///data/prod!//data/prod/g/T_B02.jp2" "zip+file://" = true
    ∧ strContains "zip+file:///data/prod!//data/prod/g/T_B02.jp2" "!/" = true := by
  refine ⟨by decide, by decide, by decide, by decide⟩

/-- C7 counterexample: the claim states that passing one band identifier
alone returns the same sequence as passing the one-element list holding
it, for every resolver.  The early `band_paths` copy never normalizes a
bare string, and `for b in bands` then iterates its characters, so the
single-string call matches every one-character substring and returns the
raster once per matching character (three times here) while the
one-element list call returns it once. -/
theorem c7_band_paths_string_band_differs :
    band_paths "/d/p.zip" ["T_B02.jp2"] (PyBands.str "B02") none
      ≠ band_paths "/d/p.zip" ["T_B02.jp2"] (PyBands.list ["B02"]) none := by
  decide

/-- C7 (amended): the interchangeability of a single band identifier and
the one-element list holding it holds for the scihub_band_paths
resolvers, which normalize `bands = [bands]` up front; it fails for the
early band_paths copy, which iterates a bare string character-wise. -/
theorem c7_scihub_band_paths_single_band_eq_singleton (cwd p : String)
    (entries : List String) (b : String) (resolution : Option String) :
    scihub_band_paths cwd p entries (PyBands.str b) resolution
      = scihub_band_paths cwd p entries (PyBands.list [b]) resolution := rfl

/-- C9: resolution filtering is idempotent: applying the substring
resolution filter of scihub_band_paths to a result already filtered by
the same tag returns the same list (hence the same set) of entries. -/
theorem c9_resolution_filter_idempotent (resolution : String)
    (rasters : List String) :
    resolutionFilter resolution (resolutionFilter resolution rasters)
      = resolutionFilter resolution rasters := by
  simp [resolutionFilter, List.filter_filter]

/-- C8: the reflectance normalizer clips to the range 0 to 2000 and then
divides by 2000, so every output lies in the closed unit interval, and
the sample inputs -100, 0, 1000, 2000, 5000 map to 0, 0, one half, 1, 1
respectively. -/
theorem c8_normalize_range_bounds_and_samples :
    (∀ v : ℚ, 0 ≤ scihub_normalize_range v ∧ scihub_normalize_range v ≤ 1)
    ∧ [(-100 : ℚ), 0, 1000, 2000, 5000].map scihub_normalize_range
        = [0, 0, 1 / 2, 1, 1] := by
  constructor
  · intro v
    unfold scihub_normalize_range
    constructor
    · exact div_nonneg (le_min (le_max_right v 0) (by norm_num)) (by norm_num)
    · exact (div_le_one (by norm_num)).mpr (min_le_right _ _)
  · simp [scihub_normalize_range, min_def, max_def]
    norm_num

/-- C3: for the rasterized cloud-mask extraction (the probability
thresholding variant, modelled from the spec because it is absent from
the three src/ copies) the output grid has exactly the target shape and a
cell is true exactly when its 0-100-scaled probability is at or above
`cloud_probability * 100`; in particular with threshold fraction 3/4 a
raw value 80 yields true and 70 yields false. -/
theorem c3_rasterized_cloud_mask :
    (∀ (h w : Nat) (prob : Nat → Nat → ℚ) (cp : ℚ),
        (scihub_cloud_mask_rasterized (h, w) prob cp).length = h
        ∧ (∀ row ∈ scihub_cloud_mask_rasterized (h, w) prob cp, row.length = w)
        ∧ (∀ i j : Nat, i < h → j < w →
            (((scihub_cloud_mask_rasterized (h, w) prob cp).get? i).getD []).get? j
              = some (decide (cp * 100 ≤ prob i j))))
    ∧ scihub_cloud_mask_rasterized (1, 1) (fun _ _ => 80) (3 / 4) = [[true]]
    ∧ scihub_cloud_mask_rasterized (1, 1) (fun _ _ => 70) (3 / 4) = [[false]] := by
  refine ⟨?_, ?_, ?_⟩
  · intro h w prob cp
    refine ⟨by simp [scihub_cloud_mask_rasterized], ?_, ?_⟩
    · intro row hrow
      simp only [scihub_cloud_mask_rasterized, List.mem_map] at hrow
      obtain ⟨i, _, rfl⟩ := hrow
      simp
    · intro i j hi hj
      simp [scihub_cloud_mask_rasterized, List.getElem?_map, List.getElem?_range, hi, hj]
  · simp [scihub_cloud_mask_rasterized, List.range_succ, decide_eq_true_eq]
    norm_num
  · simp [scihub_cloud_mask_rasterized, List.range_succ, decide_eq_false_iff_not]
    norm_num

/-- C3 witness: a concrete cell of a concrete grid, read off via the
theorem. -/
theorem c3_rasterized_cloud_mask_witness :
    (((scihub_cloud_mask_rasterized (2, 2) (fun _ _ => 80) (3 / 4)).get? 0).getD []).get? 1
      = some true := by
  have h := (c3_rasterized_cloud_mask.1 2 2 (fun _ _ => 80) (3 / 4)).2.2 0 1
    (by norm_num) (by norm_num)
  rw [h]
  simp only [Option.some.injEq, decide_eq_true_eq]
  norm_num

/-- C4 counterexample: the claim states an absent cloud-mask vector file
yields an explicitly empty geometry rather than an error, but at a
product containing no MSK_CLOUDS_B00.gml entry the lookup `[f for f in
files if ...][0]` raises IndexError, which is not caught. -/
theorem c4_absent_mask_file_raises :
    scihub_cloud_mask "/data/prod" ["a/T_B02_10m.jp2"] (fun _ => [])
        (fun _ _ _ => []) ⟨false, none, none⟩ = PyResult.exn PyErr.indexError := by
  decide

/-- C4 (amended): if the cloud-mask vector file is present but yields
zero geometry features, the vector-form extractor returns the explicitly
empty geometry `Polygon([])` rather than raising; if the file is absent,
an IndexError lookup failure propagates instead. -/
theorem c4_empty_or_absent_vector_mask (p : String) (entries : List String)
    (features : String → List Polygon)
    (gmask : Geom → List Nat → Affine → List (List Bool)) :
    (cloudMaskFile entries = none →
        scihub_cloud_mask p entries features gmask ⟨false, none, none⟩
          = PyResult.exn PyErr.indexError)
    ∧ (∀ file, cloudMaskFile entries = some file → features file = [] →
        scihub_cloud_mask p entries features gmask ⟨false, none, none⟩
          = PyResult.ok (CloudMask.vector (Geom.polygon []))) := by
  constructor
  · intro h
    simp [scihub_cloud_mask, h]
  · intro file hf hfeat
    simp [scihub_cloud_mask, hf, hfeat, unary_union]

/-- C4 witness: a product whose mask file parses to zero features
produces the empty geometry. -/
theorem c4_empty_or_absent_vector_mask_witness :
    scihub_cloud_mask "/data/prod" ["x/MSK_CLOUDS_B00.gml"] (fun _ => [])
        (fun _ _ _ => []) ⟨false, none, none⟩
      = PyResult.ok (CloudMask.vector (Geom.polygon [])) :=
  (c4_empty_or_absent_vector_mask "/data/prod" ["x/MSK_CLOUDS_B00.gml"]
      (fun _ => []) (fun _ _ _ => [])).2 "x/MSK_CLOUDS_B00.gml" (by decide) rfl

/-- C5 counterexample: the claim states every successfully opened handle
is closed when the scope exits on any path, in particular that when
opening the second of three rasters fails the first is still closed.  In
the code, an open failure raises out of `__enter__`, and per the context
manager protocol `__exit__` is then never invoked: here handle 0 was
opened (it is in `open_files`) but the with statement closes nothing. -/
theorem c5_open_failure_leaves_first_raster_unclosed :
    (rasterReaderListEnter
        (fun p => if p == 1 then PyResult.exn PyErr.valueError else PyResult.ok p)
        [0, 1, 2] []).1 = [0]
    ∧ withRasterReaderList
        (fun p => if p == 1 then PyResult.exn PyErr.valueError else PyResult.ok p)
        (fun _ => false) [0, 1, 2] none = ([], some PyErr.valueError) := by
  refine ⟨by decide, by decide⟩

/-- C5 (amended): when every open succeeds, every opened handle has its
close invoked on any exit of the with block, whatever the body outcome
and whether or not individual closes fail - a close failure is swallowed
and does not stop the remaining closes - and the exception escaping the
with statement is exactly the body outcome.  But when an open fails
during `__enter__`, the open failure propagates and no handle is closed
(`__exit__` is not called), so handles opened before the failure leak. -/
theorem c5_with_raster_reader_list_close_guarantees {P H : Type}
    (openRes : P → PyResult H) (closeFails : H → Bool) (paths : List P)
    (bodyErr : Option PyErr) :
    (∀ opened, rasterReaderListEnter openRes paths [] = (opened, none) →
        withRasterReaderList openRes closeFails paths bodyErr = (opened, bodyErr))
    ∧ (∀ opened e, rasterReaderListEnter openRes paths [] = (opened, some e) →
        withRasterReaderList openRes closeFails paths bodyErr = ([], some e)) := by
  have hexit : ∀ l : List H, rasterReaderListExit closeFails l = (l, none) := by
    intro l
    induction l with
    | nil => rfl
    | cons h t ih => simp [rasterReaderListExit, ih]
  constructor
  · intro opened h
    unfold withRasterReaderList
    rw [h]
    simp [hexit]
  · intro opened e h
    unfold withRasterReaderList
    rw [h]

/-- C5 witness: three successful opens with closes that all fail; every
handle still has its close invoked and the body outcome alone escapes. -/
theorem c5_with_raster_reader_list_close_guarantees_witness :
    withRasterReaderList (fun p : Nat => PyResult.ok p) (fun _ => true) [1, 2, 3]
        (some PyErr.valueError) = ([1, 2, 3], some PyErr.valueError) :=
  (c5_with_raster_reader_list_close_guarantees (fun p : Nat => PyResult.ok p)
      (fun _ => true) [1, 2, 3] (some PyErr.valueError)).1 [1, 2, 3] (by decide)

/-- C6 counterexample: the claim states that with rasterize requested the
missing-parameter error is raised if and only if target_shape or
target_transform is missing, and never when both are supplied.  The code
tests Python truthiness (`if not target_transform or not target_shape`),
so supplying an empty tuple as target_shape - supplied, not missing -
still raises the ValueError. -/
theorem c6_supplied_falsy_shape_still_raises :
    scihub_cloud_mask "/p" ["MSK_CLOUDS_B00.gml"] (fun _ => [[(0, 0)]])
        (fun _ _ _ => []) ⟨true, some [], some ⟨0, 0, 0, 0, 0, 0⟩⟩
      = PyResult.exn PyErr.valueError
    ∧ some ([] : List Nat) ≠ none
    ∧ some (Affine.mk 0 0 0 0 0 0) ≠ none := by
  refine ⟨by decide, by decide, by decide⟩

/-- C6 (amended): provided the mask file lookup succeeds, the rasterize
branch raises the missing-parameter ValueError exactly when rasterize is
requested and target_transform or target_shape is missing or Python
falsy (an empty shape tuple); when both are supplied with truthy values
no such error is raised. -/
theorem c6_rasterize_param_check (p : String) (entries : List String)
    (features : String → List Polygon)
    (gmask : Geom → List Nat → Affine → List (List Bool)) (kw : CMKwargs)
    (file : String) (hfile : cloudMaskFile entries = some file) :
    scihub_cloud_mask p entries features gmask kw = PyResult.exn PyErr.valueError
      ↔ kw.rasterize = true
        ∧ (pyTruthyAffine kw.target_transform = false
            ∨ pyTruthyShape kw.target_shape = false) := by
  obtain ⟨rz, ts, tt⟩ := kw
  have key : ∀ m : Geom,
      (if rz then
        if !pyTruthyAffine tt || !pyTruthyShape ts then
          (PyResult.exn PyErr.valueError : PyResult CloudMask)
        else
          match ts, tt with
          | some shape, some tf =>
            if m.isEmpty then PyResult.ok (CloudMask.raster (npFull shape true))
            else PyResult.ok (CloudMask.raster (gmask m shape tf))
          | _, _ => PyResult.exn PyErr.valueError
      else PyResult.ok (CloudMask.vector m)) = PyResult.exn PyErr.valueError
      ↔ rz = true
        ∧ (pyTruthyAffine tt = false ∨ pyTruthyShape ts = false) := by
    intro m
    cases rz
    · simp
    · rcases tt with _ | a
      · simp [pyTruthyAffine]
      · rcases ts with _ | l
        · simp [pyTruthyAffine, pyTruthyShape]
        · rcases l with _ | ⟨x, xs⟩
          · simp [pyTruthyAffine, pyTruthyShape]
          · cases hm : m.isEmpty <;>
              simp [hm, pyTruthyAffine, pyTruthyShape]
  simp only [scihub_cloud_mask, hfile]
  rcases hmask : unary_union (features file) with g | e
  · exact key g
  · cases e
    · exfalso
      simp [unary_union] at hmask
      split at hmask <;> simp_all
    · exact key (Geom.polygon [])

/-- C6 witness: rasterize requested with both parameters absent raises
the ValueError. -/
theorem c6_rasterize_param_check_witness :
    scihub_cloud_mask "/p" ["MSK_CLOUDS_B00.gml"] (fun _ => [[(0, 0)]])
        (fun _ _ _ => []) ⟨true, none, none⟩ = PyResult.exn PyErr.valueError :=
  (c6_rasterize_param_check "/p" ["MSK_CLOUDS_B00.gml"] (fun _ => [[(0, 0)]])
      (fun _ _ _ => []) ⟨true, none, none⟩ "MSK_CLOUDS_B00.gml" (by decide)).mpr
    ⟨rfl, Or.inl rfl⟩

/-- C10: the safe accessor `nth` supports negative indices like CPython
list indexing: for -len(xs) <= n < 0 it returns the element at position
len(xs) + n rather than the default, and the lookup falls back to the
default exactly for indices outside [-len(xs), len(xs)). -/
theorem c10_nth_negative_indexing (xs : List Int) (n : Int) (d : Int) :
    ((-(xs.length : Int) ≤ n ∧ n < 0) →
      (n + xs.length).toNat < xs.length
      ∧ nth xs n d = (xs.get? (n + xs.length).toNat).getD d)
    ∧ ((-(xs.length : Int) ≤ n ∧ n < (xs.length : Int))
        ↔ (pyGetItem xs n).isSome = true) := by
  constructor
  · rintro ⟨h1, h2⟩
    have hlt : (n + (xs.length : Int)).toNat < xs.length := by omega
    refine ⟨hlt, ?_⟩
    unfold nth pyGetItem
    rw [if_pos h2, if_pos (by constructor <;> omega :
      0 ≤ n + (xs.length : Int) ∧ n + (xs.length : Int) < (xs.length : Int))]
    cases xs.get? ((n + (xs.length : Int)).toNat) <;> rfl
  · unfold pyGetItem
    by_cases hn : n < 0
    · rw [if_pos hn]
      by_cases hc : 0 ≤ n + (xs.length : Int) ∧ n + (xs.length : Int) < (xs.length : Int)
      · rw [if_pos hc]
        have hlt : (n + (xs.length : Int)).toNat < xs.length := by omega
        rw [List.get?_eq_get hlt]
        simp
        omega
      · rw [if_neg hc]
        simp
        omega
    · rw [if_neg hn]
      by_cases hc : 0 ≤ n ∧ n < (xs.length : Int)
      · rw [if_pos hc]
        have hlt : n.toNat < xs.length := by omega
        rw [List.get?_eq_get hlt]
        simp
        omega
      · rw [if_neg hc]
        simp
        omega

/-- C10 witness: index -1 on a three-element list returns its last
element, not the default. -/
theorem c10_nth_negative_indexing_witness :
    nth ([10, 20, 30] : List Int) (-1) 0 = 30 := by
  obtain ⟨hb, e⟩ := (c10_nth_negative_indexing [10, 20, 30] (-1) 0).1
    ⟨by decide, by decide⟩
  rw [e]
  decide
